import Mathlib

/-!
Shallow embedding of `scripts/http-wake.py`, a minimal HTTP-to-signal
bridge.  `WakeHandler.do_POST` answers `POST /wake` by invoking
`subprocess.run(["pkill", "-USR1", "touch-timeout"], check=True)` and
mapping the outcome to an HTTP response; any other path gets a 404.
`WakeHandler` subclasses `http.server.BaseHTTPRequestHandler` and defines
only `do_POST`; the base class dispatches a request whose command `C` has
no `do_C` method to `send_error(501, ...)`.  The `__main__` block builds
the server, prints a startup line to stderr, serves until
`KeyboardInterrupt` (exit 0), and maps an `OSError` at startup (bind
failure) to two stderr diagnostics and exit 1.

The handler is modelled as a pure function from the request and the
subprocess outcome to the ordered list of observable events it performs
(subprocess invocations, status line, headers, body writes, log lines).
-/

namespace HttpWake

/-- An inbound HTTP request: command (method), request target (`self.path`,
exactly as received, query string included) and the raw body, which the
handler never reads. -/
structure Request where
  method : String
  path : String
  body : String
deriving DecidableEq, Repr

/-- Outcome of `subprocess.run(["pkill", "-USR1", "touch-timeout"], check=True)`:
either the command exits 0, or `check=True` raises
`subprocess.CalledProcessError e`; `msg` stands for `str(e)`. -/
inductive ActionResult where
  | ok
  | calledProcessError (msg : String)
deriving DecidableEq, Repr

/-- Observable steps the handler takes, in order. -/
inductive Event where
  | run (args : List String)
  | sendResponse (code : Nat)
  | sendHeader (name value : String)
  | endHeaders
  | write (s : String)
  | log (line : String)
deriving DecidableEq, Repr

/-- The request line, as `BaseHTTPRequestHandler` records it. -/
def requestLine (req : Request) : String :=
  req.method ++ " " ++ req.path ++ " HTTP/1.1"

/-- Default `BaseHTTPRequestHandler.log_message`: one line per request on
stderr.  `WakeHandler` overrides it (see `log_message`); this default is
kept only to document what the override suppresses. -/
def base_log_message (line : String) : List Event :=
  [Event.log line]

/-- `WakeHandler.log_message` is overridden with `pass`: it emits nothing. -/
def log_message (_fmt : String) (_args : List String) : List Event :=
  []

/-- `BaseHTTPRequestHandler.send_response` first logs the request via
`self.log_message` (the suppressed override) and then sends the status
line.  The `Server` and `Date` headers it also emits are wall-clock
dependent and not modelled; no claim below depends on the exact header
list, only on membership of `Content-Type`. -/
def send_response (rl : String) (code : Nat) : List Event :=
  log_message "%s %s %s" [rl, toString code] ++ [Event.sendResponse code]

/-- The fixed argument vector of the external signal-delivery action. -/
def wakeCmd : List String :=
  ["pkill", "-USR1", "touch-timeout"]

/-- `WakeHandler.do_POST`: for path `/wake`, run `wakeCmd`; on success
answer 200 with body `Display wake signal sent\n`; on
`CalledProcessError e` answer 500 with body
`Error sending signal: ` ++ `str(e)` ++ `\n`.  Any other path: 404 with
body `Not found. Use POST /wake\n`. -/
def do_POST (req : Request) (outcome : ActionResult) : List Event :=
  if req.path = "/wake" then
    match outcome with
    | ActionResult.ok =>
        Event.run wakeCmd ::
          (send_response (requestLine req) 200 ++
            [Event.sendHeader "Content-Type" "text/plain",
             Event.endHeaders,
             Event.write "Display wake signal sent\n"])
    | ActionResult.calledProcessError msg =>
        Event.run wakeCmd ::
          (send_response (requestLine req) 500 ++
            [Event.sendHeader "Content-Type" "text/plain",
             Event.endHeaders,
             Event.write ("Error sending signal: " ++ msg ++ "\n")])
  else
    send_response (requestLine req) 404 ++
      [Event.sendHeader "Content-Type" "text/plain",
       Event.endHeaders,
       Event.write "Not found. Use POST /wake\n"]

/-- Escaping performed by `html.escape(s, quote=False)` on the error page. -/
def htmlEscape (s : String) : String :=
  String.join (s.data.map fun c =>
    if c = '&' then "&amp;"
    else if c = '<' then "&lt;"
    else if c = '>' then "&gt;"
    else String.singleton c)

/-- The error page `BaseHTTPRequestHandler.send_error` renders from its
`DEFAULT_ERROR_MESSAGE` template for status `code`, message `message` and
explanation `explain`. -/
def errorPage (code : Nat) (message explain : String) : String :=
  "<!DOCTYPE HTML>\n<html lang=\"en\">\n    <head>\n        <meta charset=\"utf-8\">\n        <title>Error response</title>\n    </head>\n    <body>\n        <h1>Error response</h1>\n        <p>Error code: "
    ++ toString code
    ++ "</p>\n        <p>Message: "
    ++ htmlEscape message
    ++ ".</p>\n        <p>Error code explanation: "
    ++ toString code
    ++ " - "
    ++ htmlEscape explain
    ++ ".</p>\n    </body>\n</html>\n"

/-- `BaseHTTPRequestHandler.send_error`: status line (logged through the
suppressed `log_message`), `Connection: close`, and — when the status
admits a body — `Content-Type`/`Content-Length` headers and the HTML
error page, omitted for a `HEAD` command. -/
def send_error (req : Request) (code : Nat) (message explain : String) : List Event :=
  send_response (requestLine req) code ++
    [Event.sendHeader "Connection" "close"] ++
    (if 200 ≤ code ∧ code ≠ 204 ∧ code ≠ 304 then
      [Event.sendHeader "Content-Type" "text/html;charset=utf-8",
       Event.sendHeader "Content-Length" (toString (errorPage code message explain).utf8ByteSize)]
     else []) ++
    [Event.endHeaders] ++
    (if req.method ≠ "HEAD" ∧ 200 ≤ code ∧ code ≠ 204 ∧ code ≠ 304 then
      [Event.write (errorPage code message explain)]
     else [])

/-- `BaseHTTPRequestHandler.handle_one_request` dispatch: it looks up
method `do_<command>` on the handler.  `WakeHandler` defines only
`do_POST`, so every other command is answered with
`send_error(501, "Unsupported method (%r)")`. -/
def handleRequest (req : Request) (outcome : ActionResult) : List Event :=
  if req.method = "POST" then
    do_POST req outcome
  else
    send_error req 501 ("Unsupported method ('" ++ req.method ++ "')")
      "Server does not support this operation"

/-- Status code of a handler trace: the first status line sent. -/
def statusOf (t : List Event) : Option Nat :=
  (t.filterMap fun e =>
    match e with
    | Event.sendResponse c => some c
    | _ => none).head?

/-- Headers of a handler trace, in order. -/
def headersOf (t : List Event) : List (String × String) :=
  t.filterMap fun e =>
    match e with
    | Event.sendHeader n v => some (n, v)
    | _ => none

/-- Response body of a handler trace: the concatenation of all writes. -/
def bodyOf (t : List Event) : String :=
  String.join (t.filterMap fun e =>
    match e with
    | Event.write s => some s
    | _ => none)

/-- Log lines emitted during a handler trace. -/
def logLinesOf (t : List Event) : List String :=
  t.filterMap fun e =>
    match e with
    | Event.log l => some l
    | _ => none

/-- Subprocess invocations of a handler trace, in order. -/
def runsOf (t : List Event) : List (List String) :=
  t.filterMap fun e =>
    match e with
    | Event.run a => some a
    | _ => none

/-- True when the event is a status line. -/
def isSendResponse (e : Event) : Bool :=
  match e with
  | Event.sendResponse _ => true
  | _ => false

/-- True when the event is a subprocess invocation. -/
def isRun (e : Event) : Bool :=
  match e with
  | Event.run _ => true
  | _ => false

/-- True when no subprocess invocation occurs at or after the first status
line of the trace, i.e. every invocation happens before the response. -/
def noRunAfterResponse (t : List Event) : Bool :=
  (t.dropWhile fun e => !(isSendResponse e)).all fun e => !(isRun e)

/-- The single-threaded `HTTPServer.serve_forever` loop: requests are
handled one after another, each to completion, by a handler class with no
state of its own, so a server run over a list of requests (each paired
with its own subprocess outcome) is the per-request traces in order. -/
def serve (reqs : List (Request × ActionResult)) : List (List Event) :=
  reqs.map fun p => handleRequest p.1 p.2

/-- How the `try` block of `__main__` ends: `HTTPServer(("127.0.0.1", 8765),
WakeHandler)` raises `OSError` when the port cannot be bound, else
`serve_forever()` runs until `KeyboardInterrupt`. -/
inductive StartupResult where
  | osError (msg : String)
  | interrupted
deriving DecidableEq, Repr

/-- Observable end state of the process: exit status and stderr lines. -/
structure ProcExit where
  exitCode : Nat
  stderrLines : List String
deriving DecidableEq, Repr

/-- The startup diagnostic line. -/
def listeningLine : String :=
  "touch-timeout HTTP wake endpoint listening on 127.0.0.1:8765"

/-- The remediation hint printed after a bind failure. -/
def bindHintLine : String :=
  "Is another instance already running? Check: lsof -i :8765"

/-- The shutdown diagnostic (the source prints `\nShutting down...`). -/
def shutdownLine : String :=
  "\nShutting down..."

/-- The `__main__` block: an `OSError` from server construction is answered
with two diagnostic lines on stderr and `sys.exit(1)`; otherwise the
listening line is printed, `serve_forever()` runs, and the eventual
`KeyboardInterrupt` is answered with the shutdown line and `sys.exit(0)`. -/
def main (start : StartupResult) : ProcExit :=
  match start with
  | StartupResult.osError msg =>
      { exitCode := 1,
        stderrLines := ["Error starting server: " ++ msg, bindHintLine] }
  | StartupResult.interrupted =>
      { exitCode := 0,
        stderrLines := [listeningLine, shutdownLine] }

/-- String append is associative (componentwise `List.append_assoc`). -/
theorem str_append_assoc (a b c : String) : a ++ b ++ c = a ++ (b ++ c) := by
  rcases a with ⟨as⟩
  rcases b with ⟨bs⟩
  rcases c with ⟨cs⟩
  apply String.ext
  simp [String.data_append]

/-- The empty string is a left unit for append. -/
theorem str_empty_append (s : String) : "" ++ s = s := by
  rcases s with ⟨l⟩
  apply String.ext
  simp [String.data_append]

/-- C1: for every POST request whose path is exactly `/wake`, when the
external signal-delivery action succeeds, the handler responds with
status 200, a `Content-Type: text/plain` header, and body exactly
`Display wake signal sent\n`. -/
theorem wake_success_response (body : String) :
    statusOf (handleRequest ⟨"POST", "/wake", body⟩ ActionResult.ok) = some 200 ∧
    ("Content-Type", "text/plain") ∈
      headersOf (handleRequest ⟨"POST", "/wake", body⟩ ActionResult.ok) ∧
    bodyOf (handleRequest ⟨"POST", "/wake", body⟩ ActionResult.ok)
      = "Display wake signal sent\n" := by
  refine ⟨rfl, ?_, rfl⟩
  simp [handleRequest, do_POST, send_response, log_message, headersOf]

/-- C2: for every POST request to `/wake`, when the external
signal-delivery action fails, the handler responds with status 500, a
`Content-Type: text/plain` header, and a body that starts with
`Error sending signal:` and ends with a newline. -/
theorem wake_failure_response (body msg : String) :
    statusOf (handleRequest ⟨"POST", "/wake", body⟩ (ActionResult.calledProcessError msg))
      = some 500 ∧
    ("Content-Type", "text/plain") ∈
      headersOf (handleRequest ⟨"POST", "/wake", body⟩ (ActionResult.calledProcessError msg)) ∧
    (∃ rest, bodyOf (handleRequest ⟨"POST", "/wake", body⟩ (ActionResult.calledProcessError msg))
      = "Error sending signal:" ++ rest) ∧
    (∃ pre, bodyOf (handleRequest ⟨"POST", "/wake", body⟩ (ActionResult.calledProcessError msg))
      = pre ++ "\n") := by
  have hbody : bodyOf (handleRequest ⟨"POST", "/wake", body⟩ (ActionResult.calledProcessError msg))
      = "Error sending signal: " ++ msg ++ "\n" := by
    rw [show bodyOf (handleRequest ⟨"POST", "/wake", body⟩ (ActionResult.calledProcessError msg))
        = "" ++ ("Error sending signal: " ++ msg ++ "\n") from rfl, str_empty_append]
  refine ⟨rfl, ?_, ?_, ?_⟩
  · simp [handleRequest, do_POST, send_response, log_message, headersOf]
  · refine ⟨" " ++ (msg ++ "\n"), ?_⟩
    rw [hbody, str_append_assoc, ← str_append_assoc "Error sending signal:" " " (msg ++ "\n")]
    rfl
  · exact ⟨"Error sending signal: " ++ msg, hbody⟩

/-- C3 counterexample: a GET request to `/wake` has method ≠ POST, yet its
response status is not 404 — `WakeHandler` defines no `do_GET`, so the
base handler answers 501 (unsupported method). -/
theorem non_post_method_not_404 :
    statusOf (handleRequest ⟨"GET", "/wake", ""⟩ ActionResult.ok) ≠ some 404 ∧
    statusOf (handleRequest ⟨"GET", "/wake", ""⟩ ActionResult.ok) = some 501 := by
  decide

/-- C3 amended: every POST request whose path is not `/wake` gets status
404 with body exactly `Not found. Use POST /wake\n`; a request with any
other method is answered by the base handler with status 501, not 404. -/
theorem routing_amended :
    (∀ (path body : String) (outcome : ActionResult), path ≠ "/wake" →
      statusOf (handleRequest ⟨"POST", path, body⟩ outcome) = some 404 ∧
      bodyOf (handleRequest ⟨"POST", path, body⟩ outcome) = "Not found. Use POST /wake\n") ∧
    (∀ (req : Request) (outcome : ActionResult), req.method ≠ "POST" →
      statusOf (handleRequest req outcome) = some 501) := by
  constructor
  · intro path body outcome h
    constructor
    · simp [handleRequest, do_POST, h, statusOf, send_response, log_message]
    · simp [handleRequest, do_POST, h, bodyOf, send_response, log_message, String.join]
  · intro req outcome h
    simp only [handleRequest, if_neg h]
    unfold send_error send_response log_message statusOf
    simp [List.filterMap_append]

/-- Witness for `routing_amended` at POST `/` and GET `/wake`. -/
theorem routing_amended_witness :
    (statusOf (handleRequest ⟨"POST", "/", ""⟩ ActionResult.ok) = some 404 ∧
      bodyOf (handleRequest ⟨"POST", "/", ""⟩ ActionResult.ok) = "Not found. Use POST /wake\n") ∧
    statusOf (handleRequest ⟨"GET", "/wake", ""⟩ ActionResult.ok) = some 501 :=
  ⟨routing_amended.1 "/" "" ActionResult.ok (by decide),
   routing_amended.2 ⟨"GET", "/wake", ""⟩ ActionResult.ok (by decide)⟩

/-- C4: the handler always produces exactly one response per request, and
a server run over any request sequence handles each request in isolation:
a failing request in the middle still yields its own response and leaves
every later request served exactly as it would be on its own. -/
theorem per_request_fault_isolation :
    (∀ (req : Request) (outcome : ActionResult),
      (handleRequest req outcome).countP isSendResponse = 1) ∧
    (∀ (pre : List (Request × ActionResult)) (bad : Request × ActionResult)
        (post : List (Request × ActionResult)),
      serve (pre ++ bad :: post) = serve pre ++ handleRequest bad.1 bad.2 :: serve post) := by
  constructor
  · intro req outcome
    by_cases hm : req.method = "POST"
    · by_cases hp : req.path = "/wake"
      · cases outcome <;>
          simp [handleRequest, do_POST, hm, hp, send_response, log_message, isSendResponse]
      · simp [handleRequest, do_POST, hm, hp, send_response, log_message, isSendResponse]
    · simp only [handleRequest, if_neg hm]
      unfold send_error send_response log_message
      split <;> split <;> simp [isSendResponse]
  · intro pre bad post
    simp [serve]

/-- C7: no handler trace ever contains a per-request log line (the
`log_message` override suppresses them), and every line on the diagnostic
stream across the process lifetime is one of the lifecycle lines:
startup, shutdown, or the fatal bind-error diagnostics. -/
theorem no_access_log (req : Request) (outcome : ActionResult) (start : StartupResult)
    (line : String) (hline : line ∈ (main start).stderrLines) :
    logLinesOf (handleRequest req outcome) = [] ∧
    (line = listeningLine ∨ line = shutdownLine ∨ line = bindHintLine ∨
      ∃ m, line = "Error starting server: " ++ m) := by
  constructor
  · by_cases hm : req.method = "POST"
    · by_cases hp : req.path = "/wake"
      · cases outcome <;>
          simp [handleRequest, do_POST, hm, hp, send_response, log_message, logLinesOf]
      · simp [handleRequest, do_POST, hm, hp, send_response, log_message, logLinesOf]
    · simp only [handleRequest, if_neg hm]
      unfold send_error send_response log_message
      split <;> split <;> simp [logLinesOf]
  · cases start with
    | osError m =>
        simp [main] at hline
        rcases hline with h | h
        · exact Or.inr (Or.inr (Or.inr ⟨m, h⟩))
        · exact Or.inr (Or.inr (Or.inl h))
    | interrupted =>
        simp [main] at hline
        rcases hline with h | h
        · exact Or.inl h
        · exact Or.inr (Or.inl h)

/-- Witness for `no_access_log` at a `POST /wake` request and the startup
line of an interrupted run. -/
theorem no_access_log_witness :
    listeningLine ∈ (main StartupResult.interrupted).stderrLines ∧
    (logLinesOf (handleRequest ⟨"POST", "/wake", ""⟩ ActionResult.ok) = [] ∧
      (listeningLine = listeningLine ∨ listeningLine = shutdownLine ∨
        listeningLine = bindHintLine ∨
        ∃ m, listeningLine = "Error starting server: " ++ m)) :=
  ⟨by simp [main],
   no_access_log ⟨"POST", "/wake", ""⟩ ActionResult.ok StartupResult.interrupted listeningLine
     (by simp [main])⟩

/-- C8: the response at every position of a server run is a function of
that position's request and subprocess outcome alone — the handler keeps
no state across requests, so earlier successes or failures cannot
influence a later response. -/
theorem response_local (reqs : List (Request × ActionResult)) (i : Nat) :
    (serve reqs)[i]? = (reqs[i]?).map fun p => handleRequest p.1 p.2 := by
  simp [serve, List.getElem?_map]

/-- C9: the response never depends on the request body — two requests
differing only in their body produce identical traces — and the request
target is compared to `/wake` as an exact string, so a query string on
the target routes to the 404 branch instead of being parsed. -/
theorem body_ignored_exact_path (m p b₁ b₂ : String) (o : ActionResult) :
    handleRequest ⟨m, p, b₁⟩ o = handleRequest ⟨m, p, b₂⟩ o ∧
    statusOf (handleRequest ⟨"POST", "/wake?force=1", b₁⟩ o) = some 404 := by
  constructor
  · rfl
  · rfl

/-- C10: the external signal-delivery action runs exactly once, with the
fixed argument vector `pkill -USR1 touch-timeout`, for a POST to `/wake`,
and never runs for any other request; every invocation happens before
the response status line is sent. -/
theorem signal_invocation (req : Request) (outcome : ActionResult) :
    runsOf (handleRequest req outcome)
      = (if req.method = "POST" ∧ req.path = "/wake" then [wakeCmd] else []) ∧
    noRunAfterResponse (handleRequest req outcome) = true := by
  by_cases hm : req.method = "POST"
  · by_cases hp : req.path = "/wake"
    · cases outcome <;>
        simp [handleRequest, do_POST, hm, hp, runsOf, noRunAfterResponse, send_response,
          log_message, isSendResponse, isRun, List.dropWhile]
    · simp [handleRequest, do_POST, hm, hp, runsOf, noRunAfterResponse, send_response,
        log_message, isSendResponse, isRun, List.dropWhile]
  · constructor
    · rw [if_neg (fun hc : req.method = "POST" ∧ req.path = "/wake" => hm hc.1)]
      simp only [handleRequest, if_neg hm]
      unfold send_error send_response log_message
      split <;> split <;> simp [runsOf]
    · simp only [handleRequest, if_neg hm]
      unfold send_error send_response log_message
      split <;> split <;>
        simp [noRunAfterResponse, isSendResponse, isRun, List.dropWhile]

/-- C5: if binding the listening port fails at startup, the process writes
the diagnostic lines explaining the likely cause to stderr and exits with
status 1. -/
theorem bind_failure_exit (msg : String) :
    (main (StartupResult.osError msg)).exitCode = 1 ∧
    (main (StartupResult.osError msg)).stderrLines
      = ["Error starting server: " ++ msg, bindHintLine] := by
  exact ⟨rfl, rfl⟩

/-- C6: on an operator interrupt while serving, the process writes the
shutdown diagnostic to stderr and exits with status 0. -/
theorem interrupt_clean_exit :
    (main StartupResult.interrupted).exitCode = 0 ∧
    shutdownLine ∈ (main StartupResult.interrupted).stderrLines := by
  exact ⟨rfl, by simp [main]⟩

end HttpWake
